import Mathlib

/-!
# Guidelines (src/Guideline/Guidelines.cpp) of Engauge Digitizer

A shallow embedding of the class `Guidelines`: the ordered container of guideline pointers, the
factory pointer, and every method of the class, with the objects the class talks to (guideline
objects, the factory, the main window) kept behind an explicit record of collaborators acting on an
abstract world.

Conventions of the embedding

* A `GuidelineAbstract *` is a `GuidelinePtr` (an address), a `QGraphicsScene *` a `ScenePtr`.
* A `QString` is its sequence of UTF-16 code units; `operator<` on `QString` is the code-unit
  lexicographic order.
* `qreal` coordinates are rationals: the model agrees with the code wherever the double
  arithmetic of the code is exact, as it is on the small integers of the rectangle evaluated
  below, and nothing is stated about rectangles in general.
* Every call that `Guidelines` makes on a guideline object or on the factory is appended to the
  log `Sys.calls`, so that "is called exactly once, in this order" is a statement about the log.
* The collaborators act on the world only: a handler of a guideline does not call back into the
  `Guidelines` object that is broadcasting to it.
-/

/-! ## Qt value types -/

/-- A QString, as the sequence of its UTF-16 code units. -/
abbrev QString := List Nat

/-- The QString built from a C string literal whose characters are all Latin-1. -/
def latin1 (s : String) : QString := s.toList.map Char.toNat

/-- The comparison behind `operator<` of QString: the first differing code unit decides, and a
proper initial segment is smaller. -/
def QString.lt : QString → QString → Bool
  | [], [] => false
  | [], _ :: _ => true
  | _ :: _, [] => false
  | a :: as, b :: bs => if a < b then true else if b < a then false else QString.lt as bs

/-- The order `a <= b` of QString, that is `!(b < a)`. -/
def QString.le (a b : QString) : Prop := QString.lt b a = false

instance QString.decidableLe : DecidableRel QString.le :=
  fun a b => inferInstanceAs (Decidable (QString.lt b a = false))

/-- The call `qSort (begin, end)` on a QStringList: the elements rearranged into ascending order of
`operator<`. The order is total and antisymmetric, so the sorted arrangement is unique
(`qSort_unique`) and the algorithm that produces it does not matter. -/
def qSort (l : List QString) : List QString := l.insertionSort QString.le

/-- A point with qreal coordinates. -/
structure QPointF where
  xp : ℚ
  yp : ℚ
  deriving DecidableEq

/-- The sum of two points, `operator+` of QPointF. -/
def QPointF.add (p q : QPointF) : QPointF := ⟨p.xp + q.xp, p.yp + q.yp⟩

/-- A rectangle with qreal coordinates: its top left corner, its width and its height. -/
structure QRectF where
  xp : ℚ
  yp : ℚ
  w : ℚ
  h : ℚ
  deriving DecidableEq

/-- The constructor `QRectF (topLeft, bottomRight)`. -/
def QRectF.ofCorners (topLeft bottomRight : QPointF) : QRectF :=
  ⟨topLeft.xp, topLeft.yp, bottomRight.xp - topLeft.xp, bottomRight.yp - topLeft.yp⟩

def QRectF.topLeft (r : QRectF) : QPointF := ⟨r.xp, r.yp⟩

def QRectF.topRight (r : QRectF) : QPointF := ⟨r.xp + r.w, r.yp⟩

def QRectF.bottomLeft (r : QRectF) : QPointF := ⟨r.xp, r.yp + r.h⟩

def QRectF.bottomRight (r : QRectF) : QPointF := ⟨r.xp + r.w, r.yp + r.h⟩

def QRectF.width (r : QRectF) : ℚ := r.w

def QRectF.height (r : QRectF) : ℚ := r.h

/-! ## Pointers, state tags and collaborators -/

/-- The address of a guideline object, a `GuidelineAbstract *`. -/
abbrev GuidelinePtr := Nat

/-- The address of a scene, a `QGraphicsScene *`. -/
abbrev ScenePtr := Nat

/-- Modelled from the spec: the enumeration GuidelineState (GuidelineState.h is not among the
sources). The eight template tags are the ones named in Guidelines.cpp; the deployed tags follow
the state variants of the data model. -/
inductive GuidelineState where
  | GUIDELINE_STATE_DEPLOYED_CONSTANT_X_LOCKED
  | GUIDELINE_STATE_DEPLOYED_CONSTANT_X_UNLOCKED
  | GUIDELINE_STATE_DEPLOYED_CONSTANT_Y_LOCKED
  | GUIDELINE_STATE_DEPLOYED_CONSTANT_Y_UNLOCKED
  | GUIDELINE_STATE_TEMPLATE_HORIZONTAL_BOTTOM_HIDE
  | GUIDELINE_STATE_TEMPLATE_HORIZONTAL_BOTTOM_LURKING
  | GUIDELINE_STATE_TEMPLATE_HORIZONTAL_TOP_HIDE
  | GUIDELINE_STATE_TEMPLATE_HORIZONTAL_TOP_LURKING
  | GUIDELINE_STATE_TEMPLATE_VERTICAL_LEFT_HIDE
  | GUIDELINE_STATE_TEMPLATE_VERTICAL_LEFT_LURKING
  | GUIDELINE_STATE_TEMPLATE_VERTICAL_RIGHT_HIDE
  | GUIDELINE_STATE_TEMPLATE_VERTICAL_RIGHT_LURKING
  deriving DecidableEq, Repr

open GuidelineState

/-- A scene as far as Guidelines uses it: its address and its scene rectangle. -/
structure QGraphicsScene where
  ptr : ScenePtr
  sceneRect : QRectF
  deriving DecidableEq

/-- The method `setSceneRect` of a scene. -/
def QGraphicsScene.setSceneRect (scene : QGraphicsScene) (rect : QRectF) : QGraphicsScene :=
  { scene with sceneRect := rect }

/-- The factory object: the five scene pointers its constructor receives. -/
structure GuidelineFactory where
  sceneMain : ScenePtr
  sceneGuidelineBottom : ScenePtr
  sceneGuidelineLeft : ScenePtr
  sceneGuidelineRight : ScenePtr
  sceneGuidelineTop : ScenePtr
  deriving DecidableEq

/-- The methods of other classes that Guidelines calls, acting on a world `W` that holds the
guideline objects, the scenes they are attached to and the main window. -/
structure Collaborators (W : Type) where
  /-- The address `&guideline->scene ()`; `none` is the null pointer. -/
  scene : W → GuidelinePtr → Option ScenePtr
  /-- The call `guideline->removeFromScene (scene)`. -/
  removeFromScene : W → GuidelinePtr → ScenePtr → W
  /-- The call `guideline->handleActiveChange (active)`. -/
  handleActiveChange : W → GuidelinePtr → Bool → W
  /-- The call `guideline->handleVisibleChange (visible)`. -/
  handleVisibleChange : W → GuidelinePtr → Bool → W
  /-- The call `guideline->updateColor ()`. -/
  updateColor : W → GuidelinePtr → W
  /-- The call `guideline->updateWithLatestTransformation ()`. -/
  updateWithLatestTransformation : W → GuidelinePtr → W
  /-- The const call `guideline->stateDump ()`. -/
  stateDump : W → GuidelinePtr → QString
  /-- The call `m_guidelineFactory->createGuideline (*this, stateInitial)`: the new guideline and
  the world that holds it. -/
  createGuideline : W → GuidelineFactory → GuidelineState → GuidelinePtr × W
  /-- The query `m_mainWindow.transformation ().transformIsDefined ()`. -/
  transformIsDefined : W → Bool

/-- A call made by Guidelines on a guideline object or on the factory. -/
inductive Call where
  | removeFromScene (guideline : GuidelinePtr) (scene : ScenePtr)
  | handleActiveChange (guideline : GuidelinePtr) (active : Bool)
  | handleVisibleChange (guideline : GuidelinePtr) (visible : Bool)
  | updateColor (guideline : GuidelinePtr)
  | updateWithLatestTransformation (guideline : GuidelinePtr)
  | createGuideline (stateInitial : GuidelineState) (guideline : GuidelinePtr)
  deriving DecidableEq, Repr

/-! ## The class Guidelines -/

/-- The data members of Guidelines. The reference `m_mainWindow` is part of the world. -/
structure Guidelines where
  /-- The container `GuidelineContainerPrivate`, a list of guideline pointers. -/
  m_guidelineContainer : List GuidelinePtr
  /-- The factory pointer; `none` is `nullptr`. -/
  m_guidelineFactory : Option GuidelineFactory
  deriving DecidableEq

/-- A Guidelines object together with the world around it and the log of the calls it made. -/
structure Sys (W : Type) where
  self : Guidelines
  world : W
  calls : List Call

/-- The constructor: an empty container and a null factory pointer. -/
def Guidelines.new : Guidelines := ⟨[], none⟩

/-- A loop `for (itr = begin (); itr != end (); itr++)` over the container, `body` being run on
each element in turn. -/
def forEachGuideline {W : Type} (body : Sys W → GuidelinePtr → Sys W) :
    List GuidelinePtr → Sys W → Sys W
  | [], s => s
  | guideline :: rest, s => forEachGuideline body rest (body s guideline)

/-- The body of the loop of `Guidelines::clear`. -/
def Guidelines.clearBody {W : Type} (env : Collaborators W) (s : Sys W)
    (guideline : GuidelinePtr) : Sys W :=
  match env.scene s.world guideline with
  | some scene =>
    { s with world := env.removeFromScene s.world guideline scene
             calls := s.calls ++ [Call.removeFromScene guideline scene] }
  | none => s

/-- The method `Guidelines::clear`. -/
def Guidelines.clear {W : Type} (env : Collaborators W) (s : Sys W) : Sys W :=
  let s1 := forEachGuideline (Guidelines.clearBody env) s.self.m_guidelineContainer s
  { s1 with self := { s1.self with m_guidelineContainer := [] } }

/-- The method `Guidelines::createGuideline`; `none` when the factory pointer is null. -/
def Guidelines.createGuideline {W : Type} (env : Collaborators W) (s : Sys W)
    (stateInitial : GuidelineState) : Option (GuidelinePtr × Sys W) :=
  match s.self.m_guidelineFactory with
  | none => none
  | some factory =>
    let r := env.createGuideline s.world factory stateInitial
    some (r.1, { s with world := r.2, calls := s.calls ++ [Call.createGuideline stateInitial r.1] })

/-- The method `Guidelines::handleActiveChange`. -/
def Guidelines.handleActiveChange {W : Type} (env : Collaborators W) (s : Sys W)
    (active : Bool) : Sys W :=
  forEachGuideline
    (fun s guideline =>
      { s with world := env.handleActiveChange s.world guideline active
               calls := s.calls ++ [Call.handleActiveChange guideline active] })
    s.self.m_guidelineContainer s

/-- The method `Guidelines::handleVisibleChange`. -/
def Guidelines.handleVisibleChange {W : Type} (env : Collaborators W) (s : Sys W)
    (visible : Bool) : Sys W :=
  forEachGuideline
    (fun s guideline =>
      { s with world := env.handleVisibleChange s.world guideline visible
               calls := s.calls ++ [Call.handleVisibleChange guideline visible] })
    s.self.m_guidelineContainer s

/-- The method `Guidelines::registerGuideline`. -/
def Guidelines.registerGuideline {W : Type} (s : Sys W) (guideline : GuidelinePtr) : Sys W :=
  { s with self := { s.self with
      m_guidelineContainer := s.self.m_guidelineContainer ++ [guideline] } }

/-- The constant `MARGIN` of `Guidelines::initialize`. -/
def MARGIN : Int := 13

/-- The scenes as `Guidelines::initialize` leaves them, and the system after it. -/
structure InitializeResult (W : Type) where
  sys : Sys W
  sceneGuidelineBottom : QGraphicsScene
  sceneGuidelineLeft : QGraphicsScene
  sceneGuidelineRight : QGraphicsScene
  sceneGuidelineTop : QGraphicsScene

/-- The statement `registerGuideline (m_guidelineFactory->createGuideline (*this, state))`. -/
def Guidelines.createAndRegister {W : Type} (env : Collaborators W) (factory : GuidelineFactory)
    (s : Sys W) (stateInitial : GuidelineState) : Sys W :=
  let r := env.createGuideline s.world factory stateInitial
  Guidelines.registerGuideline
    { s with world := r.2, calls := s.calls ++ [Call.createGuideline stateInitial r.1] } r.1

/-- The method `Guidelines::initialize`. -/
def Guidelines.initialize {W : Type} (env : Collaborators W) (s : Sys W)
    (scene sceneGuidelineBottom sceneGuidelineLeft sceneGuidelineRight
      sceneGuidelineTop : QGraphicsScene) : InitializeResult W :=
  let factory : GuidelineFactory :=
    ⟨scene.ptr, sceneGuidelineBottom.ptr, sceneGuidelineLeft.ptr, sceneGuidelineRight.ptr,
      sceneGuidelineTop.ptr⟩
  let s0 : Sys W := { s with self := { s.self with m_guidelineFactory := some factory } }
  let rectBottom := QRectF.ofCorners scene.sceneRect.bottomLeft
    (scene.sceneRect.bottomRight.add ⟨0, MARGIN⟩)
  let rectLeft := QRectF.ofCorners (scene.sceneRect.topLeft.add ⟨-MARGIN, 0⟩)
    scene.sceneRect.bottomLeft
  let rectRight := QRectF.ofCorners scene.sceneRect.topRight
    (scene.sceneRect.bottomRight.add ⟨MARGIN, 0⟩)
  let rectTop := QRectF.ofCorners (scene.sceneRect.topLeft.add ⟨0, MARGIN⟩)
    scene.sceneRect.topRight
  let stateVerticalLeft := GUIDELINE_STATE_TEMPLATE_VERTICAL_LEFT_LURKING
  let stateVerticalRight := GUIDELINE_STATE_TEMPLATE_VERTICAL_RIGHT_LURKING
  let stateHorizontalTop := GUIDELINE_STATE_TEMPLATE_HORIZONTAL_TOP_LURKING
  let stateHorizontalBottom := GUIDELINE_STATE_TEMPLATE_HORIZONTAL_BOTTOM_LURKING
  let hide := !env.transformIsDefined s0.world
  let stateVerticalLeft :=
    if hide then GUIDELINE_STATE_TEMPLATE_VERTICAL_LEFT_HIDE else stateVerticalLeft
  let stateVerticalRight :=
    if hide then GUIDELINE_STATE_TEMPLATE_VERTICAL_RIGHT_HIDE else stateVerticalRight
  let stateHorizontalTop :=
    if hide then GUIDELINE_STATE_TEMPLATE_HORIZONTAL_TOP_HIDE else stateHorizontalTop
  let stateHorizontalBottom :=
    if hide then GUIDELINE_STATE_TEMPLATE_HORIZONTAL_BOTTOM_HIDE else stateHorizontalBottom
  let s1 := Guidelines.createAndRegister env factory s0 stateVerticalLeft
  let s2 := Guidelines.createAndRegister env factory s1 stateVerticalRight
  let s3 := Guidelines.createAndRegister env factory s2 stateHorizontalTop
  let s4 := Guidelines.createAndRegister env factory s3 stateHorizontalBottom
  { sys := s4
    sceneGuidelineBottom := sceneGuidelineBottom.setSceneRect rectBottom
    sceneGuidelineLeft := sceneGuidelineLeft.setSceneRect rectLeft
    sceneGuidelineRight := sceneGuidelineRight.setSceneRect rectRight
    sceneGuidelineTop := sceneGuidelineTop.setSceneRect rectTop }

/-- The first loop of `Guidelines::stateDump`: each member's dump string is appended to `sorted`. -/
def Guidelines.collectDumps {W : Type} (env : Collaborators W) (world : W) :
    List GuidelinePtr → List QString → List QString
  | [], sorted => sorted
  | guideline :: rest, sorted =>
    Guidelines.collectDumps env world rest (sorted ++ [env.stateDump world guideline])

/-- The second loop of `Guidelines::stateDump`: each entry is streamed into `out` after the
indentation and is followed by a newline. -/
def Guidelines.writeEntries : List QString → QString → QString
  | [], out => out
  | entry :: rest, out =>
    Guidelines.writeEntries rest
      (out ++ latin1 "                    " ++ entry ++ latin1 "\n")

/-- The const method `Guidelines::stateDump`. -/
def Guidelines.stateDump {W : Type} (env : Collaborators W) (world : W)
    (self : Guidelines) : QString :=
  let sorted := Guidelines.collectDumps env world self.m_guidelineContainer []
  let sorted := qSort sorted
  let out : QString := []
  let out := out ++ latin1 "Guidelines::stateDump:\n"
  Guidelines.writeEntries sorted out

/-- The method `Guidelines::updateColor`. -/
def Guidelines.updateColor {W : Type} (env : Collaborators W) (s : Sys W) : Sys W :=
  forEachGuideline
    (fun s guideline =>
      { s with world := env.updateColor s.world guideline
               calls := s.calls ++ [Call.updateColor guideline] })
    s.self.m_guidelineContainer s

/-- The method `Guidelines::updateWithLatestTransformation`. -/
def Guidelines.updateWithLatestTransformation {W : Type} (env : Collaborators W)
    (s : Sys W) : Sys W :=
  forEachGuideline
    (fun s guideline =>
      { s with world := env.updateWithLatestTransformation s.world guideline
               calls := s.calls ++ [Call.updateWithLatestTransformation guideline] })
    s.self.m_guidelineContainer s

/-! ## A reference world -/

/-- Modelled from the spec: a guideline object (GuidelineAbstract and its state machine are not
among the sources), reduced to its state tag, the scene that currently holds it, and the last
values broadcast to it. -/
structure GuidelineObject where
  state : GuidelineState
  scene : Option ScenePtr
  active : Bool
  visible : Bool
  deriving DecidableEq

/-- Modelled from the spec: the world of the reference collaborators. The address of a guideline
object is its index in `guidelines`. -/
structure RefWorld where
  guidelines : List GuidelineObject
  transformIsDefined : Bool
  deriving DecidableEq

/-- Modelled from the spec: the surface a new guideline is attached to, by the orientation of its
tag (factory contract): a vertical template goes to the left or right edge surface, a horizontal
template to the top or bottom edge surface, a deployed guideline to the main surface. -/
def GuidelineFactory.sceneFor (factory : GuidelineFactory) : GuidelineState → ScenePtr
  | GUIDELINE_STATE_TEMPLATE_VERTICAL_LEFT_HIDE => factory.sceneGuidelineLeft
  | GUIDELINE_STATE_TEMPLATE_VERTICAL_LEFT_LURKING => factory.sceneGuidelineLeft
  | GUIDELINE_STATE_TEMPLATE_VERTICAL_RIGHT_HIDE => factory.sceneGuidelineRight
  | GUIDELINE_STATE_TEMPLATE_VERTICAL_RIGHT_LURKING => factory.sceneGuidelineRight
  | GUIDELINE_STATE_TEMPLATE_HORIZONTAL_TOP_HIDE => factory.sceneGuidelineTop
  | GUIDELINE_STATE_TEMPLATE_HORIZONTAL_TOP_LURKING => factory.sceneGuidelineTop
  | GUIDELINE_STATE_TEMPLATE_HORIZONTAL_BOTTOM_HIDE => factory.sceneGuidelineBottom
  | GUIDELINE_STATE_TEMPLATE_HORIZONTAL_BOTTOM_LURKING => factory.sceneGuidelineBottom
  | _ => factory.sceneMain

/-- Modelled from the spec: the state name of a tag, a stable identifier unique per variant. -/
def GuidelineState.stateName : GuidelineState → String
  | GUIDELINE_STATE_DEPLOYED_CONSTANT_X_LOCKED => "GuidelineStateDeployedConstantXLocked"
  | GUIDELINE_STATE_DEPLOYED_CONSTANT_X_UNLOCKED => "GuidelineStateDeployedConstantXUnlocked"
  | GUIDELINE_STATE_DEPLOYED_CONSTANT_Y_LOCKED => "GuidelineStateDeployedConstantYLocked"
  | GUIDELINE_STATE_DEPLOYED_CONSTANT_Y_UNLOCKED => "GuidelineStateDeployedConstantYUnlocked"
  | GUIDELINE_STATE_TEMPLATE_HORIZONTAL_BOTTOM_HIDE => "GuidelineStateTemplateHorizontalBottomHide"
  | GUIDELINE_STATE_TEMPLATE_HORIZONTAL_BOTTOM_LURKING =>
    "GuidelineStateTemplateHorizontalBottomLurking"
  | GUIDELINE_STATE_TEMPLATE_HORIZONTAL_TOP_HIDE => "GuidelineStateTemplateHorizontalTopHide"
  | GUIDELINE_STATE_TEMPLATE_HORIZONTAL_TOP_LURKING => "GuidelineStateTemplateHorizontalTopLurking"
  | GUIDELINE_STATE_TEMPLATE_VERTICAL_LEFT_HIDE => "GuidelineStateTemplateVerticalLeftHide"
  | GUIDELINE_STATE_TEMPLATE_VERTICAL_LEFT_LURKING => "GuidelineStateTemplateVerticalLeftLurking"
  | GUIDELINE_STATE_TEMPLATE_VERTICAL_RIGHT_HIDE => "GuidelineStateTemplateVerticalRightHide"
  | GUIDELINE_STATE_TEMPLATE_VERTICAL_RIGHT_LURKING =>
    "GuidelineStateTemplateVerticalRightLurking"

/-- The object at address `guideline` replaced by its image under `f`. -/
def RefWorld.modify (world : RefWorld) (guideline : GuidelinePtr)
    (f : GuidelineObject → GuidelineObject) : RefWorld :=
  match world.guidelines[guideline]? with
  | some object => { world with guidelines := world.guidelines.set guideline (f object) }
  | none => world

/-- Modelled from the spec: collaborators that follow the scene attachment contract and the
factory contract. A guideline removes itself from the surface that holds it; the factory returns a
guideline that did not exist before, attached to the surface of its orientation; the dump string of
a guideline is the name of its state; the broadcasts are recorded on the guideline. -/
def refCollaborators : Collaborators RefWorld where
  scene := fun world guideline => (world.guidelines[guideline]?).bind (fun object => object.scene)
  removeFromScene := fun world guideline scene =>
    world.modify guideline
      (fun object => if object.scene = some scene then { object with scene := none } else object)
  handleActiveChange := fun world guideline active =>
    world.modify guideline (fun object => { object with active := active })
  handleVisibleChange := fun world guideline visible =>
    world.modify guideline (fun object => { object with visible := visible })
  updateColor := fun world _ => world
  updateWithLatestTransformation := fun world _ => world
  stateDump := fun world guideline =>
    match world.guidelines[guideline]? with
    | some object => latin1 object.state.stateName
    | none => []
  createGuideline := fun world factory stateInitial =>
    (world.guidelines.length,
      { world with
        guidelines := world.guidelines
          ++ [⟨stateInitial, some (factory.sceneFor stateInitial), true, true⟩] })
  transformIsDefined := fun world => world.transformIsDefined

/-- Collaborators whose guideline keeps the reference to its scene: `removeFromScene` leaves the
world as it is, so that `&guideline->scene ()` reads after the call what it read before. -/
def refCollaboratorsStoredScene : Collaborators RefWorld :=
  { refCollaborators with removeFromScene := fun world _ _ => world }

/-- The calls that one pass of the loop of `Guidelines::clear` makes on `guideline` when the scene
address it has just read is `scene`: one `removeFromScene` call with that address when it is not
null, no call when it is null. -/
def Call.detach (guideline : GuidelinePtr) : Option ScenePtr → List Call
  | some scene => [Call.removeFromScene guideline scene]
  | none => []

/-- The world after the guidelines of `visited` have been treated one after the other as the loop
of `Guidelines::clear` treats an entry: the scene address is read, and when it is not null
`removeFromScene` is called with it. -/
def Collaborators.detachAll {W : Type} (env : Collaborators W) (visited : List GuidelinePtr)
    (world : W) : W :=
  visited.foldl
    (fun w guideline =>
      match env.scene w guideline with
      | some scene => env.removeFromScene w guideline scene
      | none => w)
    world

/-- The guidelines that the factory returned, in the order of the `createGuideline` calls of a
log. -/
def Call.created : List Call → List GuidelinePtr
  | [] => []
  | Call.createGuideline _ guideline :: rest => guideline :: Call.created rest
  | _ :: rest => Call.created rest

/-- A world of three guideline objects: the first on the left edge scene 3, the second without a
scene, the third on the main scene 1. -/
def RefWorld.sample : RefWorld :=
  ⟨[⟨GUIDELINE_STATE_TEMPLATE_VERTICAL_LEFT_LURKING, some 3, true, true⟩,
    ⟨GUIDELINE_STATE_TEMPLATE_HORIZONTAL_TOP_HIDE, none, true, true⟩,
    ⟨GUIDELINE_STATE_DEPLOYED_CONSTANT_X_LOCKED, some 1, true, true⟩], true⟩

/-- The factory that `Guidelines::initialize` builds for the scenes at addresses 1 to 5. -/
def GuidelineFactory.sample : GuidelineFactory := ⟨1, 2, 3, 4, 5⟩

/-! ## The order of QString -/

theorem QString.lt_asymm : ∀ a b : QString, QString.lt a b = true → QString.lt b a = false
  | [], [] => by simp [QString.lt]
  | [], _ :: _ => by simp [QString.lt]
  | _ :: _, [] => by simp [QString.lt]
  | x :: xs, y :: ys => by
    have ih := QString.lt_asymm xs ys
    simp only [QString.lt]
    split_ifs <;> first | omega | simp | exact ih

theorem QString.eq_of_not_lt : ∀ a b : QString,
    QString.lt a b = false → QString.lt b a = false → a = b
  | [], [] => by simp
  | [], _ :: _ => by simp [QString.lt]
  | _ :: _, [] => by simp [QString.lt]
  | x :: xs, y :: ys => by
    have ih := QString.eq_of_not_lt xs ys
    simp only [QString.lt]
    split_ifs <;> try simp
    intro h5 h6
    exact ⟨by omega, ih h5 h6⟩

theorem QString.lt_trans : ∀ a b c : QString,
    QString.lt a b = true → QString.lt b c = true → QString.lt a c = true
  | [], [], _ => by simp [QString.lt]
  | [], _ :: _, [] => by simp [QString.lt]
  | [], _ :: _, _ :: _ => by simp [QString.lt]
  | _ :: _, [], _ => by simp [QString.lt]
  | _ :: _, _ :: _, [] => by simp [QString.lt]
  | x :: xs, y :: ys, z :: zs => by
    have ih := QString.lt_trans xs ys zs
    simp only [QString.lt]
    split_ifs <;> first | omega | simp | exact ih

/-- The comparison `QString.lt` is the lexicographic order of the code-unit sequences. -/
theorem QString.lt_iff_lex : ∀ a b : QString,
    QString.lt a b = true ↔ List.Lex (fun x y : Nat => x < y) a b
  | [], [] => by simp [QString.lt]
  | [], _ :: _ => by simp [QString.lt, List.Lex.nil]
  | _ :: _, [] => by simp [QString.lt]
  | x :: xs, y :: ys => by
    have ih := QString.lt_iff_lex xs ys
    simp only [QString.lt]
    constructor
    · intro h
      split_ifs at h with h1 h2
      · exact List.Lex.rel h1
      · have hxy : x = y := by omega
        subst hxy
        exact List.Lex.cons (ih.mp h)
    · intro h
      cases h with
      | rel h1 => simp [h1]
      | cons h1 => simp [ih.mpr h1]

theorem QString.le_total (a b : QString) : QString.le a b ∨ QString.le b a := by
  unfold QString.le
  cases h : QString.lt b a
  · exact Or.inl rfl
  · exact Or.inr (QString.lt_asymm b a h)

theorem QString.le_antisymm (a b : QString) (h1 : QString.le a b) (h2 : QString.le b a) :
    a = b :=
  QString.eq_of_not_lt a b h2 h1

theorem QString.le_trans (a b c : QString) (h1 : QString.le a b) (h2 : QString.le b c) :
    QString.le a c := by
  unfold QString.le at *
  cases h : QString.lt c a
  · rfl
  · cases hab : QString.lt a b
    · have hEq := QString.eq_of_not_lt a b hab h1
      subst hEq
      rw [h] at h2
      cases h2
    · have hcb := QString.lt_trans c a b h hab
      rw [hcb] at h2
      cases h2

instance QString.isTotalLe : IsTotal QString QString.le := ⟨QString.le_total⟩

instance QString.isTransLe : IsTrans QString QString.le := ⟨QString.le_trans⟩

instance QString.isAntisymmLe : IsAntisymm QString QString.le := ⟨QString.le_antisymm⟩

theorem qSort_perm (l : List QString) : (qSort l).Perm l :=
  List.perm_insertionSort QString.le l

theorem qSort_sorted (l : List QString) : (qSort l).Pairwise QString.le :=
  List.sorted_insertionSort QString.le l

/-- Any ascending rearrangement of a list of QStrings is the one `qSort` yields. -/
theorem qSort_unique (l sorted : List QString) (hp : sorted.Perm l)
    (hs : sorted.Pairwise QString.le) : sorted = qSort l :=
  List.eq_of_perm_of_sorted (hp.trans (qSort_perm l).symm) hs (qSort_sorted l)

theorem qSort_congr (l1 l2 : List QString) (hp : l1.Perm l2) : qSort l1 = qSort l2 :=
  qSort_unique l2 (qSort l1) ((qSort_perm l1).trans hp) (qSort_sorted l1)

/-! ## The loops -/

theorem Guidelines.collectDumps_eq {W : Type} (env : Collaborators W) (world : W) :
    ∀ (l : List GuidelinePtr) (sorted : List QString),
      Guidelines.collectDumps env world l sorted = sorted ++ l.map (env.stateDump world)
  | [], sorted => by simp [Guidelines.collectDumps]
  | g :: rest, sorted => by
    simp [Guidelines.collectDumps, Guidelines.collectDumps_eq env world rest]

theorem latin1_indent : latin1 "                    " = List.replicate 20 32 := by decide

theorem latin1_newline : latin1 "\n" = [10] := by decide

theorem Guidelines.writeEntries_eq : ∀ (l : List QString) (out : QString),
    Guidelines.writeEntries l out
      = out ++ (l.map (fun entry => List.replicate 20 32 ++ entry ++ [10])).flatten
  | [], out => by simp [Guidelines.writeEntries]
  | entry :: rest, out => by
    simp [Guidelines.writeEntries, Guidelines.writeEntries_eq rest, latin1_indent,
      latin1_newline, List.append_assoc]

theorem Guidelines.stateDump_eq {W : Type} (env : Collaborators W) (world : W)
    (self : Guidelines) :
    Guidelines.stateDump env world self
      = latin1 "Guidelines::stateDump:\n"
        ++ ((qSort (self.m_guidelineContainer.map (env.stateDump world))).map
            (fun entry => List.replicate 20 32 ++ entry ++ [10])).flatten := by
  simp [Guidelines.stateDump, Guidelines.collectDumps_eq, Guidelines.writeEntries_eq]

theorem forEachGuideline_eq {W : Type} (step : W → GuidelinePtr → W) (call : GuidelinePtr → Call) :
    ∀ (l : List GuidelinePtr) (s : Sys W),
      forEachGuideline
          (fun s guideline =>
            { s with world := step s.world guideline, calls := s.calls ++ [call guideline] })
          l s
        = { self := s.self, world := l.foldl step s.world, calls := s.calls ++ l.map call }
  | [], s => by simp [forEachGuideline]
  | g :: rest, s => by
    simp [forEachGuideline, forEachGuideline_eq step call rest]

/-! ## The dump -/

/-- C1: `Guidelines::stateDump` depends only on the multiset of the dump strings of the members:
two collections whose members have the same dump strings up to rearrangement, in particular a
collection and any permutation of its registration order, return the identical string. -/
theorem Guidelines.stateDump_permutation {W : Type} (env1 env2 : Collaborators W)
    (world1 world2 : W) (a b : Guidelines)
    (h : (a.m_guidelineContainer.map (env1.stateDump world1)).Perm
      (b.m_guidelineContainer.map (env2.stateDump world2))) :
    Guidelines.stateDump env1 world1 a = Guidelines.stateDump env2 world2 b := by
  rw [Guidelines.stateDump_eq, Guidelines.stateDump_eq, qSort_congr _ _ h]

/-- Witness of C1: three guidelines of distinct states registered in two different orders. -/
theorem Guidelines.stateDump_permutation_witness :
    ((([0, 1, 2] : List GuidelinePtr).map
        (refCollaborators.stateDump
          ⟨[⟨GUIDELINE_STATE_TEMPLATE_VERTICAL_LEFT_LURKING, none, true, true⟩,
            ⟨GUIDELINE_STATE_DEPLOYED_CONSTANT_X_LOCKED, none, true, true⟩,
            ⟨GUIDELINE_STATE_TEMPLATE_HORIZONTAL_TOP_HIDE, none, true, true⟩], true⟩)).Perm
      (([2, 0, 1] : List GuidelinePtr).map
        (refCollaborators.stateDump
          ⟨[⟨GUIDELINE_STATE_TEMPLATE_VERTICAL_LEFT_LURKING, none, true, true⟩,
            ⟨GUIDELINE_STATE_DEPLOYED_CONSTANT_X_LOCKED, none, true, true⟩,
            ⟨GUIDELINE_STATE_TEMPLATE_HORIZONTAL_TOP_HIDE, none, true, true⟩], true⟩)))
    ∧ Guidelines.stateDump refCollaborators
        ⟨[⟨GUIDELINE_STATE_TEMPLATE_VERTICAL_LEFT_LURKING, none, true, true⟩,
          ⟨GUIDELINE_STATE_DEPLOYED_CONSTANT_X_LOCKED, none, true, true⟩,
          ⟨GUIDELINE_STATE_TEMPLATE_HORIZONTAL_TOP_HIDE, none, true, true⟩], true⟩
        ⟨[0, 1, 2], none⟩
      = Guidelines.stateDump refCollaborators
        ⟨[⟨GUIDELINE_STATE_TEMPLATE_VERTICAL_LEFT_LURKING, none, true, true⟩,
          ⟨GUIDELINE_STATE_DEPLOYED_CONSTANT_X_LOCKED, none, true, true⟩,
          ⟨GUIDELINE_STATE_TEMPLATE_HORIZONTAL_TOP_HIDE, none, true, true⟩], true⟩
        ⟨[2, 0, 1], none⟩ :=
  have hp : ((([0, 1, 2] : List GuidelinePtr).map
        (refCollaborators.stateDump
          ⟨[⟨GUIDELINE_STATE_TEMPLATE_VERTICAL_LEFT_LURKING, none, true, true⟩,
            ⟨GUIDELINE_STATE_DEPLOYED_CONSTANT_X_LOCKED, none, true, true⟩,
            ⟨GUIDELINE_STATE_TEMPLATE_HORIZONTAL_TOP_HIDE, none, true, true⟩], true⟩)).Perm
      (([2, 0, 1] : List GuidelinePtr).map
        (refCollaborators.stateDump
          ⟨[⟨GUIDELINE_STATE_TEMPLATE_VERTICAL_LEFT_LURKING, none, true, true⟩,
            ⟨GUIDELINE_STATE_DEPLOYED_CONSTANT_X_LOCKED, none, true, true⟩,
            ⟨GUIDELINE_STATE_TEMPLATE_HORIZONTAL_TOP_HIDE, none, true, true⟩], true⟩))) :=
    List.Perm.map _ (by decide)
  ⟨hp, Guidelines.stateDump_permutation _ _ _ _ _ _ hp⟩

/-- C2: `Guidelines::stateDump` returns the header line followed by one line per member, each line
being twenty spaces, the member's dump string and a newline; the dump strings of the lines are a
rearrangement of the members' dump strings (none dropped, none added, equal ones kept) in
ascending order of `operator<`. -/
theorem Guidelines.stateDump_format {W : Type} (env : Collaborators W) (world : W)
    (self : Guidelines) :
    ∃ sorted : List QString,
      sorted.Perm (self.m_guidelineContainer.map (env.stateDump world))
      ∧ sorted.Pairwise (fun a b => QString.lt b a = false)
      ∧ Guidelines.stateDump env world self
        = latin1 "Guidelines::stateDump:\n"
          ++ (sorted.map (fun entry => List.replicate 20 32 ++ entry ++ latin1 "\n")).flatten :=
  ⟨qSort (self.m_guidelineContainer.map (env.stateDump world)), qSort_perm _, qSort_sorted _,
    by rw [latin1_newline]; exact Guidelines.stateDump_eq env world self⟩

/-- C3: after `Guidelines::clear`, whatever the collection held, `Guidelines::stateDump` returns
exactly the header. -/
theorem Guidelines.clear_stateDump {W : Type} (env : Collaborators W) (s : Sys W) :
    Guidelines.stateDump env (Guidelines.clear env s).world (Guidelines.clear env s).self
      = latin1 "Guidelines::stateDump:\n" := by
  simp [Guidelines.stateDump_eq, Guidelines.clear, qSort]

/-! ## Registration and broadcasts -/

/-- C7: `Guidelines::registerGuideline (g)` turns the membership `M` into `M` followed by `g`: one
element more, every earlier position unchanged, `g` last, and one more occurrence of `g` than
before, so that registering a member again leaves it in the membership twice. -/
theorem Guidelines.registerGuideline_appends {W : Type} (s : Sys W) (g : GuidelinePtr) :
    (Guidelines.registerGuideline s g).self.m_guidelineContainer
        = s.self.m_guidelineContainer ++ [g]
    ∧ (Guidelines.registerGuideline s g).self.m_guidelineContainer.length
        = s.self.m_guidelineContainer.length + 1
    ∧ (∀ i, i < s.self.m_guidelineContainer.length →
        (Guidelines.registerGuideline s g).self.m_guidelineContainer[i]?
          = s.self.m_guidelineContainer[i]?)
    ∧ (Guidelines.registerGuideline s g).self.m_guidelineContainer.getLast? = some g
    ∧ (Guidelines.registerGuideline s g).self.m_guidelineContainer.count g
        = s.self.m_guidelineContainer.count g + 1
    ∧ (Guidelines.registerGuideline s g).self.m_guidelineFactory = s.self.m_guidelineFactory
    ∧ (Guidelines.registerGuideline s g).world = s.world
    ∧ (Guidelines.registerGuideline s g).calls = s.calls := by
  refine ⟨rfl, by simp [Guidelines.registerGuideline], ?_, by simp [Guidelines.registerGuideline],
    by simp [Guidelines.registerGuideline], rfl, rfl, rfl⟩
  intro i hi
  simp [Guidelines.registerGuideline, List.getElem?_append_left hi]

/-- The broadcasts leave the Guidelines object as it was. -/
theorem Guidelines.broadcast_self {W : Type} (env : Collaborators W) (s : Sys W) (b : Bool) :
    (Guidelines.handleActiveChange env s b).self = s.self
    ∧ (Guidelines.handleVisibleChange env s b).self = s.self
    ∧ (Guidelines.updateColor env s).self = s.self
    ∧ (Guidelines.updateWithLatestTransformation env s).self = s.self := by
  refine ⟨?_, ?_, ?_, ?_⟩
  · rw [Guidelines.handleActiveChange,
      forEachGuideline_eq (fun w g => env.handleActiveChange w g b)
        (fun g => Call.handleActiveChange g b)]
  · rw [Guidelines.handleVisibleChange,
      forEachGuideline_eq (fun w g => env.handleVisibleChange w g b)
        (fun g => Call.handleVisibleChange g b)]
  · rw [Guidelines.updateColor, forEachGuideline_eq env.updateColor Call.updateColor]
  · rw [Guidelines.updateWithLatestTransformation,
      forEachGuideline_eq env.updateWithLatestTransformation Call.updateWithLatestTransformation]

/-- C9: each of the four broadcasts calls its handler once on every member, in membership order
and with the argument it was given, threads the world through these calls in that order, and
leaves the Guidelines object, its membership included, as it was. -/
theorem Guidelines.broadcast_each_member_once {W : Type} (env : Collaborators W) (s : Sys W)
    (b : Bool) :
    ((Guidelines.handleActiveChange env s b).calls
        = s.calls ++ s.self.m_guidelineContainer.map (fun g => Call.handleActiveChange g b)
      ∧ (Guidelines.handleActiveChange env s b).world
        = s.self.m_guidelineContainer.foldl (fun w g => env.handleActiveChange w g b) s.world
      ∧ (Guidelines.handleActiveChange env s b).self = s.self)
    ∧ ((Guidelines.handleVisibleChange env s b).calls
        = s.calls ++ s.self.m_guidelineContainer.map (fun g => Call.handleVisibleChange g b)
      ∧ (Guidelines.handleVisibleChange env s b).world
        = s.self.m_guidelineContainer.foldl (fun w g => env.handleVisibleChange w g b) s.world
      ∧ (Guidelines.handleVisibleChange env s b).self = s.self)
    ∧ ((Guidelines.updateColor env s).calls
        = s.calls ++ s.self.m_guidelineContainer.map Call.updateColor
      ∧ (Guidelines.updateColor env s).world
        = s.self.m_guidelineContainer.foldl env.updateColor s.world
      ∧ (Guidelines.updateColor env s).self = s.self)
    ∧ ((Guidelines.updateWithLatestTransformation env s).calls
        = s.calls ++ s.self.m_guidelineContainer.map Call.updateWithLatestTransformation
      ∧ (Guidelines.updateWithLatestTransformation env s).world
        = s.self.m_guidelineContainer.foldl env.updateWithLatestTransformation s.world
      ∧ (Guidelines.updateWithLatestTransformation env s).self = s.self) := by
  refine ⟨?_, ?_, ?_, ?_⟩
  · rw [Guidelines.handleActiveChange,
      forEachGuideline_eq (fun w g => env.handleActiveChange w g b)
        (fun g => Call.handleActiveChange g b)]
    exact ⟨rfl, rfl, rfl⟩
  · rw [Guidelines.handleVisibleChange,
      forEachGuideline_eq (fun w g => env.handleVisibleChange w g b)
        (fun g => Call.handleVisibleChange g b)]
    exact ⟨rfl, rfl, rfl⟩
  · rw [Guidelines.updateColor, forEachGuideline_eq env.updateColor Call.updateColor]
    exact ⟨rfl, rfl, rfl⟩
  · rw [Guidelines.updateWithLatestTransformation,
      forEachGuideline_eq env.updateWithLatestTransformation Call.updateWithLatestTransformation]
    exact ⟨rfl, rfl, rfl⟩

/-! ## Creation -/

theorem Guidelines.createAndRegister_spec {W : Type} (env : Collaborators W)
    (factory : GuidelineFactory) (s : Sys W) (stateInitial : GuidelineState) :
    ∃ g : GuidelinePtr,
      (Guidelines.createAndRegister env factory s stateInitial).self.m_guidelineContainer
        = s.self.m_guidelineContainer ++ [g]
      ∧ (Guidelines.createAndRegister env factory s stateInitial).calls
        = s.calls ++ [Call.createGuideline stateInitial g]
      ∧ (Guidelines.createAndRegister env factory s stateInitial).self.m_guidelineFactory
        = s.self.m_guidelineFactory :=
  ⟨(env.createGuideline s.world factory stateInitial).1, rfl, rfl, rfl⟩

/-- What `Guidelines::initialize` does to the membership, the factory pointer and the log, from
any state: four guidelines are asked of the new factory and appended in the order of creation. -/
theorem Guidelines.initialize_sys {W : Type} (env : Collaborators W) (s : Sys W)
    (scene sceneGuidelineBottom sceneGuidelineLeft sceneGuidelineRight
      sceneGuidelineTop : QGraphicsScene) :
    ∃ g1 g2 g3 g4 : GuidelinePtr,
      ( Guidelines.initialize env s scene sceneGuidelineBottom
          sceneGuidelineLeft sceneGuidelineRight sceneGuidelineTop).sys.self.m_guidelineContainer
        = s.self.m_guidelineContainer ++ [g1, g2, g3, g4]
      ∧ ( Guidelines.initialize env s scene sceneGuidelineBottom
          sceneGuidelineLeft sceneGuidelineRight sceneGuidelineTop).sys.calls
        = s.calls ++ (if env.transformIsDefined s.world = true then
            [Call.createGuideline GUIDELINE_STATE_TEMPLATE_VERTICAL_LEFT_LURKING g1,
              Call.createGuideline GUIDELINE_STATE_TEMPLATE_VERTICAL_RIGHT_LURKING g2,
              Call.createGuideline GUIDELINE_STATE_TEMPLATE_HORIZONTAL_TOP_LURKING g3,
              Call.createGuideline GUIDELINE_STATE_TEMPLATE_HORIZONTAL_BOTTOM_LURKING g4]
          else
            [Call.createGuideline GUIDELINE_STATE_TEMPLATE_VERTICAL_LEFT_HIDE g1,
              Call.createGuideline GUIDELINE_STATE_TEMPLATE_VERTICAL_RIGHT_HIDE g2,
              Call.createGuideline GUIDELINE_STATE_TEMPLATE_HORIZONTAL_TOP_HIDE g3,
              Call.createGuideline GUIDELINE_STATE_TEMPLATE_HORIZONTAL_BOTTOM_HIDE g4])
      ∧ ( Guidelines.initialize env s scene sceneGuidelineBottom
          sceneGuidelineLeft sceneGuidelineRight sceneGuidelineTop).sys.self.m_guidelineFactory
        = some ⟨scene.ptr, sceneGuidelineBottom.ptr, sceneGuidelineLeft.ptr,
            sceneGuidelineRight.ptr, sceneGuidelineTop.ptr⟩ := by
  obtain ⟨g1, c1, l1, f1⟩ := Guidelines.createAndRegister_spec env
    ⟨scene.ptr, sceneGuidelineBottom.ptr, sceneGuidelineLeft.ptr, sceneGuidelineRight.ptr,
      sceneGuidelineTop.ptr⟩
    { s with self := { s.self with m_guidelineFactory := (some
      ⟨scene.ptr, sceneGuidelineBottom.ptr, sceneGuidelineLeft.ptr, sceneGuidelineRight.ptr,
        sceneGuidelineTop.ptr⟩) } }
    (if (!env.transformIsDefined s.world) = true then GUIDELINE_STATE_TEMPLATE_VERTICAL_LEFT_HIDE
      else GUIDELINE_STATE_TEMPLATE_VERTICAL_LEFT_LURKING)
  obtain ⟨g2, c2, l2, f2⟩ := Guidelines.createAndRegister_spec env
    ⟨scene.ptr, sceneGuidelineBottom.ptr, sceneGuidelineLeft.ptr, sceneGuidelineRight.ptr,
      sceneGuidelineTop.ptr⟩ _
    (if (!env.transformIsDefined s.world) = true then GUIDELINE_STATE_TEMPLATE_VERTICAL_RIGHT_HIDE
      else GUIDELINE_STATE_TEMPLATE_VERTICAL_RIGHT_LURKING)
  obtain ⟨g3, c3, l3, f3⟩ := Guidelines.createAndRegister_spec env
    ⟨scene.ptr, sceneGuidelineBottom.ptr, sceneGuidelineLeft.ptr, sceneGuidelineRight.ptr,
      sceneGuidelineTop.ptr⟩ _
    (if (!env.transformIsDefined s.world) = true then GUIDELINE_STATE_TEMPLATE_HORIZONTAL_TOP_HIDE
      else GUIDELINE_STATE_TEMPLATE_HORIZONTAL_TOP_LURKING)
  obtain ⟨g4, c4, l4, f4⟩ := Guidelines.createAndRegister_spec env
    ⟨scene.ptr, sceneGuidelineBottom.ptr, sceneGuidelineLeft.ptr, sceneGuidelineRight.ptr,
      sceneGuidelineTop.ptr⟩ _
    (if (!env.transformIsDefined s.world) = true then
      GUIDELINE_STATE_TEMPLATE_HORIZONTAL_BOTTOM_HIDE
      else GUIDELINE_STATE_TEMPLATE_HORIZONTAL_BOTTOM_LURKING)
  refine ⟨g1, g2, g3, g4, ?_, ?_, ?_⟩
  · simp only [ Guidelines.initialize]
    rw [c4, c3, c2, c1]
    simp
  · simp only [ Guidelines.initialize]
    rw [l4, l3, l2, l1]
    cases h : env.transformIsDefined s.world <;> simp
  · simp only [ Guidelines.initialize]
    rw [f4, f3, f2, f1]

theorem Guidelines.clearBody_eq {W : Type} (env : Collaborators W) (s : Sys W)
    (guideline : GuidelinePtr) :
    Guidelines.clearBody env s guideline
      = { self := s.self
          world := env.detachAll [guideline] s.world
          calls := s.calls ++ Call.detach guideline (env.scene s.world guideline) } := by
  cases h : env.scene s.world guideline <;>
    simp [Guidelines.clearBody, Collaborators.detachAll, Call.detach, h]

/-- The loop of `Guidelines::clear`, entry by entry: the entry `entry.2`, reached after the
entries `entry.1`, gets the calls of `Call.detach` for the scene address read at that moment. -/
theorem Guidelines.clear_loop {W : Type} (env : Collaborators W) :
    ∀ (l : List GuidelinePtr) (s : Sys W),
      forEachGuideline (Guidelines.clearBody env) l s
        = { self := s.self
            world := env.detachAll l s.world
            calls := s.calls ++ ((l.inits.zip l).map (fun entry =>
              Call.detach entry.2
                (env.scene (env.detachAll entry.1 s.world) entry.2))).flatten }
  | [], s => by simp [forEachGuideline, Collaborators.detachAll]
  | a :: rest, s => by
    rw [forEachGuideline, Guidelines.clear_loop env rest, Guidelines.clearBody_eq]
    simp [List.inits_cons, List.zip_map_left, Collaborators.detachAll, Function.comp_def]

/-- The loop of `Guidelines::clear` on a membership without a duplicate, when `removeFromScene`
on one guideline leaves the scene address of every other guideline as it was: every entry is
treated by the scene address it had before the loop. -/
theorem Guidelines.clear_loop_nodup {W : Type} (env : Collaborators W)
    (hframe : ∀ world guideline scene other, other ≠ guideline →
      env.scene (env.removeFromScene world guideline scene) other = env.scene world other) :
    ∀ (l : List GuidelinePtr) (s : Sys W), l.Nodup →
      (forEachGuideline (Guidelines.clearBody env) l s).calls
        = s.calls ++ (l.map (fun g => Call.detach g (env.scene s.world g))).flatten
  | [], s, _ => by simp [forEachGuideline]
  | a :: rest, s, hnodup => by
    obtain ⟨hnot, hrest⟩ := List.nodup_cons.mp hnodup
    rw [forEachGuideline, Guidelines.clear_loop_nodup env hframe rest _ hrest,
      Guidelines.clearBody_eq]
    have hsame : ∀ g ∈ rest,
        Call.detach g (env.scene (env.detachAll [a] s.world) g)
          = Call.detach g (env.scene s.world g) := by
      intro g hg
      have hne : g ≠ a := fun h => hnot (h ▸ hg)
      cases h : env.scene s.world a with
      | none => simp [Collaborators.detachAll, h]
      | some scene => simp [Collaborators.detachAll, h, hframe s.world a scene g hne]
    simp [List.map_congr_left hsame, List.append_assoc]

/-- C5: `Guidelines::clear` visits the entries of the membership in order and, for each entry,
reads the scene address of the guideline and calls `removeFromScene` on it exactly once, with that
address, when the address is not null, and makes no call on it when the address is null
(`Call.detach`); `entry.1` are the entries visited before and `entry.2` is the guideline. The
world is the one these calls leave, the membership is empty afterwards and the factory pointer is
kept. On an empty collection the log and the world are unchanged. When the membership has no
duplicate and `removeFromScene` on one guideline leaves the scene address of the others as it
was, each member is treated by the attachment it had before the call of `clear`. -/
theorem Guidelines.clear_each_entry_once {W : Type} (env : Collaborators W) (s : Sys W) :
    (Guidelines.clear env s).calls
        = s.calls ++ ((s.self.m_guidelineContainer.inits.zip s.self.m_guidelineContainer).map
            (fun entry => Call.detach entry.2
              (env.scene (env.detachAll entry.1 s.world) entry.2))).flatten
    ∧ (Guidelines.clear env s).world = env.detachAll s.self.m_guidelineContainer s.world
    ∧ (Guidelines.clear env s).self.m_guidelineContainer = []
    ∧ (Guidelines.clear env s).self.m_guidelineFactory = s.self.m_guidelineFactory
    ∧ (s.self.m_guidelineContainer = [] →
        (Guidelines.clear env s).calls = s.calls ∧ (Guidelines.clear env s).world = s.world)
    ∧ (s.self.m_guidelineContainer.Nodup →
        (∀ world guideline scene other, other ≠ guideline →
          env.scene (env.removeFromScene world guideline scene) other = env.scene world other) →
        (Guidelines.clear env s).calls
          = s.calls ++ (s.self.m_guidelineContainer.map
              (fun g => Call.detach g (env.scene s.world g))).flatten) := by
  refine ⟨?_, ?_, rfl, ?_, ?_, ?_⟩
  · simp only [Guidelines.clear]
    rw [Guidelines.clear_loop]
  · simp only [Guidelines.clear]
    rw [Guidelines.clear_loop]
  · simp only [Guidelines.clear]
    rw [Guidelines.clear_loop]
  · intro hempty
    simp [Guidelines.clear, hempty, forEachGuideline]
  · intro hnodup hframe
    simp only [Guidelines.clear]
    exact Guidelines.clear_loop_nodup env hframe _ s hnodup

/-- Over the sample world, whose guidelines lose their scene when removed from it: of the four
entries 0, 1, 2, 0 the first and the third are detached, the second has no scene and the fourth,
the guideline of the first entry again, has none any more. -/
theorem Guidelines.clear_sample :
    (Guidelines.clear refCollaborators ⟨⟨[0, 1, 2, 0], none⟩, RefWorld.sample, []⟩).calls
      = [Call.removeFromScene 0 3, Call.removeFromScene 2 1]
    ∧ (Guidelines.clear refCollaborators
        ⟨⟨[0, 1, 2, 0], none⟩, RefWorld.sample, []⟩).self.m_guidelineContainer = [] := by
  decide

/-- Over the sample world with guidelines that keep their scene reference: each of the two
entries of the membership 0, 0 gets its call, so that guideline 0 is removed from scene 3 twice,
and the entry 1, whose scene address is null, gets none. -/
theorem Guidelines.clear_sample_stored_scene :
    (Guidelines.clear refCollaboratorsStoredScene
        ⟨⟨[0, 0], none⟩, RefWorld.sample, []⟩).calls
      = [Call.removeFromScene 0 3, Call.removeFromScene 0 3]
    ∧ (Guidelines.clear refCollaboratorsStoredScene
        ⟨⟨[0, 1, 2], none⟩, RefWorld.sample, []⟩).calls
      = [Call.removeFromScene 0 3, Call.removeFromScene 2 1]
    ∧ (Guidelines.clear refCollaboratorsStoredScene
        ⟨⟨[0, 0], none⟩, RefWorld.sample, []⟩).self.m_guidelineContainer = [] := by
  decide

/-- C6: on an initialized collection `Guidelines::createGuideline` returns the guideline that
the factory returns for the tag, after that one factory call, and leaves the Guidelines object,
its membership included, as it was; when the creation does not change the dump string of any
member, `Guidelines::stateDump` before and after is the same string. -/
theorem Guidelines.createGuideline_not_registered {W : Type} (env : Collaborators W) (s : Sys W)
    (stateInitial : GuidelineState) (factory : GuidelineFactory)
    (h : s.self.m_guidelineFactory = some factory) :
    ∃ after : Sys W,
      Guidelines.createGuideline env s stateInitial
        = some ((env.createGuideline s.world factory stateInitial).1, after)
      ∧ after.self = s.self
      ∧ after.self.m_guidelineContainer = s.self.m_guidelineContainer
      ∧ after.world = (env.createGuideline s.world factory stateInitial).2
      ∧ after.calls = s.calls
          ++ [Call.createGuideline stateInitial
              (env.createGuideline s.world factory stateInitial).1]
      ∧ ((∀ g ∈ s.self.m_guidelineContainer,
            env.stateDump after.world g = env.stateDump s.world g) →
          Guidelines.stateDump env after.world after.self
            = Guidelines.stateDump env s.world s.self) := by
  refine ⟨{ s with world := (env.createGuideline s.world factory stateInitial).2
                   calls := s.calls ++ [Call.createGuideline stateInitial
                     (env.createGuideline s.world factory stateInitial).1] },
    by simp [Guidelines.createGuideline, h], rfl, rfl, rfl, rfl, ?_⟩
  intro hdump
  rw [Guidelines.stateDump_eq, Guidelines.stateDump_eq]
  have hmap : List.map (env.stateDump (env.createGuideline s.world factory stateInitial).2)
        s.self.m_guidelineContainer
      = List.map (env.stateDump s.world) s.self.m_guidelineContainer :=
    List.map_congr_left hdump
  simp only [hmap]

/-- Witness of C6: a preview guideline is created over the sample world by a collection that
holds two of the three guidelines. -/
theorem Guidelines.createGuideline_not_registered_witness :
    (⟨[0, 2], some GuidelineFactory.sample⟩ : Guidelines).m_guidelineFactory
      = some GuidelineFactory.sample
    ∧ ∃ after : Sys RefWorld,
      Guidelines.createGuideline refCollaborators
          ⟨⟨[0, 2], some GuidelineFactory.sample⟩, RefWorld.sample, []⟩
          GUIDELINE_STATE_DEPLOYED_CONSTANT_Y_UNLOCKED
        = some ((refCollaborators.createGuideline RefWorld.sample GuidelineFactory.sample
            GUIDELINE_STATE_DEPLOYED_CONSTANT_Y_UNLOCKED).1, after)
      ∧ after.self = ⟨[0, 2], some GuidelineFactory.sample⟩
      ∧ after.self.m_guidelineContainer = [0, 2]
      ∧ after.world = (refCollaborators.createGuideline RefWorld.sample GuidelineFactory.sample
            GUIDELINE_STATE_DEPLOYED_CONSTANT_Y_UNLOCKED).2
      ∧ after.calls = []
          ++ [Call.createGuideline GUIDELINE_STATE_DEPLOYED_CONSTANT_Y_UNLOCKED
              (refCollaborators.createGuideline RefWorld.sample GuidelineFactory.sample
                GUIDELINE_STATE_DEPLOYED_CONSTANT_Y_UNLOCKED).1]
      ∧ ((∀ g ∈ ([0, 2] : List GuidelinePtr),
            refCollaborators.stateDump after.world g
              = refCollaborators.stateDump RefWorld.sample g) →
          Guidelines.stateDump refCollaborators after.world after.self
            = Guidelines.stateDump refCollaborators RefWorld.sample
                ⟨[0, 2], some GuidelineFactory.sample⟩) :=
  ⟨rfl,
    Guidelines.createGuideline_not_registered refCollaborators
      ⟨⟨[0, 2], some GuidelineFactory.sample⟩, RefWorld.sample, []⟩
      GUIDELINE_STATE_DEPLOYED_CONSTANT_Y_UNLOCKED GuidelineFactory.sample rfl⟩

/-! ## No guideline twice -/

theorem Call.created_initialize {W : Type} (env : Collaborators W) (s : Sys W)
    (scene sceneGuidelineBottom sceneGuidelineLeft sceneGuidelineRight
      sceneGuidelineTop : QGraphicsScene) (h : s.calls = []) :
    ( Guidelines.initialize env s scene sceneGuidelineBottom sceneGuidelineLeft
        sceneGuidelineRight sceneGuidelineTop).sys.self.m_guidelineContainer
      = s.self.m_guidelineContainer
        ++ Call.created ( Guidelines.initialize env s scene sceneGuidelineBottom
            sceneGuidelineLeft sceneGuidelineRight sceneGuidelineTop).sys.calls := by
  obtain ⟨g1, g2, g3, g4, hc, hl, _⟩ := Guidelines.initialize_sys env s scene
    sceneGuidelineBottom sceneGuidelineLeft sceneGuidelineRight sceneGuidelineTop
  rw [hc, hl, h]
  cases env.transformIsDefined s.world <;> simp [Call.created]

/-- Counterexample to C8: on a collection that holds the one guideline 7, without a duplicate,
`Guidelines::registerGuideline (7)` produces the membership 7, 7. -/
theorem Guidelines.registerGuideline_twice_duplicates :
    (Guidelines.registerGuideline (⟨Guidelines.new, (), []⟩ : Sys Unit)
        7).self.m_guidelineContainer.Nodup
    ∧ (Guidelines.registerGuideline
        (Guidelines.registerGuideline (⟨Guidelines.new, (), []⟩ : Sys Unit) 7)
        7).self.m_guidelineContainer = [7, 7]
    ∧ ¬ (Guidelines.registerGuideline
        (Guidelines.registerGuideline (⟨Guidelines.new, (), []⟩ : Sys Unit) 7)
        7).self.m_guidelineContainer.Nodup := by
  decide

/-- C8, amended: the freshly constructed collection has no duplicate member, and from a
collection without a duplicate member: `registerGuideline (g)` yields one when `g` is not already
a member; `initialize` yields one when the guidelines that the factory returns are distinct from
one another and from the members; `clear`, `createGuideline`, `handleActiveChange`,
`handleVisibleChange`, `updateColor` and `updateWithLatestTransformation` always yield one. -/
theorem Guidelines.nodup_preserved {W : Type} (env : Collaborators W) (self : Guidelines)
    (world : W) (h : self.m_guidelineContainer.Nodup) :
    Guidelines.new.m_guidelineContainer.Nodup
    ∧ (∀ g, g ∉ self.m_guidelineContainer →
        (Guidelines.registerGuideline ⟨self, world, []⟩ g).self.m_guidelineContainer.Nodup)
    ∧ (∀ scene sceneGuidelineBottom sceneGuidelineLeft sceneGuidelineRight sceneGuidelineTop,
        (Call.created ( Guidelines.initialize env ⟨self, world, []⟩ scene sceneGuidelineBottom
          sceneGuidelineLeft sceneGuidelineRight sceneGuidelineTop).sys.calls).Nodup →
        (∀ g ∈ Call.created ( Guidelines.initialize env ⟨self, world, []⟩ scene
            sceneGuidelineBottom sceneGuidelineLeft sceneGuidelineRight
            sceneGuidelineTop).sys.calls,
          g ∉ self.m_guidelineContainer) →
        ( Guidelines.initialize env ⟨self, world, []⟩ scene sceneGuidelineBottom
          sceneGuidelineLeft sceneGuidelineRight
          sceneGuidelineTop).sys.self.m_guidelineContainer.Nodup)
    ∧ (Guidelines.clear env ⟨self, world, []⟩).self.m_guidelineContainer.Nodup
    ∧ (∀ stateInitial result,
        Guidelines.createGuideline env ⟨self, world, []⟩ stateInitial = some result →
        result.2.self.m_guidelineContainer.Nodup)
    ∧ (∀ b, (Guidelines.handleActiveChange env ⟨self, world, []⟩
        b).self.m_guidelineContainer.Nodup)
    ∧ (∀ b, (Guidelines.handleVisibleChange env ⟨self, world, []⟩
        b).self.m_guidelineContainer.Nodup)
    ∧ (Guidelines.updateColor env ⟨self, world, []⟩).self.m_guidelineContainer.Nodup
    ∧ (Guidelines.updateWithLatestTransformation env
        ⟨self, world, []⟩).self.m_guidelineContainer.Nodup := by
  refine ⟨by simp [Guidelines.new], ?_, ?_, by simp [Guidelines.clear], ?_, ?_, ?_, ?_, ?_⟩
  · intro g hg
    simp only [Guidelines.registerGuideline]
    exact List.nodup_append.mpr ⟨h, List.nodup_singleton g, by simpa using hg⟩
  · intro scene sceneGuidelineBottom sceneGuidelineLeft sceneGuidelineRight sceneGuidelineTop
      hnodup hfresh
    rw [Call.created_initialize env ⟨self, world, []⟩ scene sceneGuidelineBottom
      sceneGuidelineLeft sceneGuidelineRight sceneGuidelineTop rfl]
    refine List.nodup_append.mpr ⟨h, hnodup, ?_⟩
    intro g hg1 hg2
    exact hfresh g hg2 hg1
  · intro stateInitial result hresult
    cases hf : self.m_guidelineFactory with
    | none => simp [Guidelines.createGuideline, hf] at hresult
    | some factory =>
      simp only [Guidelines.createGuideline, hf, Option.some.injEq] at hresult
      rw [← hresult]
      exact h
  · intro b
    rw [(Guidelines.broadcast_self env ⟨self, world, []⟩ b).1]
    exact h
  · intro b
    rw [(Guidelines.broadcast_self env ⟨self, world, []⟩ b).2.1]
    exact h
  · rw [(Guidelines.broadcast_self env ⟨self, world, []⟩ true).2.2.1]
    exact h
  · rw [(Guidelines.broadcast_self env ⟨self, world, []⟩ true).2.2.2]
    exact h

/-- Witness of C8, amended: over the sample world a collection that holds guidelines 0 and 2
registers guideline 1, and is initialized with a factory whose guidelines are new. -/
theorem Guidelines.nodup_preserved_witness :
    ([0, 2] : List GuidelinePtr).Nodup
    ∧ (Guidelines.registerGuideline (⟨⟨[0, 2], none⟩, RefWorld.sample, []⟩ : Sys RefWorld)
        1).self.m_guidelineContainer.Nodup
    ∧ ( Guidelines.initialize refCollaborators ⟨⟨[0, 2], none⟩, RefWorld.sample, []⟩
        ⟨1, ⟨0, 0, 100, 50⟩⟩ ⟨2, ⟨0, 0, 0, 0⟩⟩ ⟨3, ⟨0, 0, 0, 0⟩⟩ ⟨4, ⟨0, 0, 0, 0⟩⟩
        ⟨5, ⟨0, 0, 0, 0⟩⟩).sys.self.m_guidelineContainer.Nodup
    ∧ ( Guidelines.initialize refCollaborators ⟨⟨[0, 2], none⟩, RefWorld.sample, []⟩
        ⟨1, ⟨0, 0, 100, 50⟩⟩ ⟨2, ⟨0, 0, 0, 0⟩⟩ ⟨3, ⟨0, 0, 0, 0⟩⟩ ⟨4, ⟨0, 0, 0, 0⟩⟩
        ⟨5, ⟨0, 0, 0, 0⟩⟩).sys.self.m_guidelineContainer = [0, 2, 3, 4, 5, 6] :=
  ⟨by decide,
    (Guidelines.nodup_preserved refCollaborators ⟨[0, 2], none⟩ RefWorld.sample
      (by decide)).2.1 1 (by decide),
    (Guidelines.nodup_preserved refCollaborators ⟨[0, 2], none⟩ RefWorld.sample
      (by decide)).2.2.1 ⟨1, ⟨0, 0, 100, 50⟩⟩ ⟨2, ⟨0, 0, 0, 0⟩⟩ ⟨3, ⟨0, 0, 0, 0⟩⟩
        ⟨4, ⟨0, 0, 0, 0⟩⟩ ⟨5, ⟨0, 0, 0, 0⟩⟩ (by decide) (by decide),
    by decide⟩

/-! ## The edge scene rectangles -/

/-- C10 at the main scene rectangle with top left corner (0, 0), width 100 and height 50: the
rectangle set on the top edge scene is `QRectF (QPointF (0, 13), QPointF (100, 0))`, of width 100
and height -13, neither 13 nor non-negative, while the bottom, left and right rectangles have the
thickness 13. -/
theorem Guidelines.initialize_rectTop_negative_height :
    ( Guidelines.initialize refCollaborators ⟨Guidelines.new, ⟨[], true⟩, []⟩
        ⟨1, ⟨0, 0, 100, 50⟩⟩ ⟨2, ⟨0, 0, 0, 0⟩⟩ ⟨3, ⟨0, 0, 0, 0⟩⟩ ⟨4, ⟨0, 0, 0, 0⟩⟩
        ⟨5, ⟨0, 0, 0, 0⟩⟩).sceneGuidelineTop.sceneRect = ⟨0, 13, 100, -13⟩
    ∧ ( Guidelines.initialize refCollaborators ⟨Guidelines.new, ⟨[], true⟩, []⟩
        ⟨1, ⟨0, 0, 100, 50⟩⟩ ⟨2, ⟨0, 0, 0, 0⟩⟩ ⟨3, ⟨0, 0, 0, 0⟩⟩ ⟨4, ⟨0, 0, 0, 0⟩⟩
        ⟨5, ⟨0, 0, 0, 0⟩⟩).sceneGuidelineTop.sceneRect.height ≠ 13
    ∧ ¬ (0 ≤ ( Guidelines.initialize refCollaborators ⟨Guidelines.new, ⟨[], true⟩, []⟩
        ⟨1, ⟨0, 0, 100, 50⟩⟩ ⟨2, ⟨0, 0, 0, 0⟩⟩ ⟨3, ⟨0, 0, 0, 0⟩⟩ ⟨4, ⟨0, 0, 0, 0⟩⟩
        ⟨5, ⟨0, 0, 0, 0⟩⟩).sceneGuidelineTop.sceneRect.height)
    ∧ ( Guidelines.initialize refCollaborators ⟨Guidelines.new, ⟨[], true⟩, []⟩
        ⟨1, ⟨0, 0, 100, 50⟩⟩ ⟨2, ⟨0, 0, 0, 0⟩⟩ ⟨3, ⟨0, 0, 0, 0⟩⟩ ⟨4, ⟨0, 0, 0, 0⟩⟩
        ⟨5, ⟨0, 0, 0, 0⟩⟩).sceneGuidelineBottom.sceneRect = ⟨0, 50, 100, 13⟩
    ∧ ( Guidelines.initialize refCollaborators ⟨Guidelines.new, ⟨[], true⟩, []⟩
        ⟨1, ⟨0, 0, 100, 50⟩⟩ ⟨2, ⟨0, 0, 0, 0⟩⟩ ⟨3, ⟨0, 0, 0, 0⟩⟩ ⟨4, ⟨0, 0, 0, 0⟩⟩
        ⟨5, ⟨0, 0, 0, 0⟩⟩).sceneGuidelineLeft.sceneRect = ⟨-13, 0, 13, 50⟩
    ∧ ( Guidelines.initialize refCollaborators ⟨Guidelines.new, ⟨[], true⟩, []⟩
        ⟨1, ⟨0, 0, 100, 50⟩⟩ ⟨2, ⟨0, 0, 0, 0⟩⟩ ⟨3, ⟨0, 0, 0, 0⟩⟩ ⟨4, ⟨0, 0, 0, 0⟩⟩
        ⟨5, ⟨0, 0, 0, 0⟩⟩).sceneGuidelineRight.sceneRect = ⟨100, 0, 13, 50⟩ := by
  norm_num [ Guidelines.initialize, QGraphicsScene.setSceneRect, QRectF.ofCorners,
    QRectF.topLeft, QRectF.topRight, QRectF.bottomLeft, QRectF.bottomRight, QPointF.add, MARGIN,
    QRectF.height]

/-! ## The whole class on the reference world -/

set_option maxRecDepth 1000000 in
/-- With a transformation defined, a fresh collection that is initialized over the reference
world dumps its four lurking templates in the order of their names. -/
theorem Guidelines.initialize_stateDump_lurking :
    Guidelines.stateDump refCollaborators
      ( Guidelines.initialize refCollaborators ⟨Guidelines.new, ⟨[], true⟩, []⟩
        ⟨1, ⟨0, 0, 100, 50⟩⟩ ⟨2, ⟨0, 0, 0, 0⟩⟩ ⟨3, ⟨0, 0, 0, 0⟩⟩ ⟨4, ⟨0, 0, 0, 0⟩⟩
        ⟨5, ⟨0, 0, 0, 0⟩⟩).sys.world
      ( Guidelines.initialize refCollaborators ⟨Guidelines.new, ⟨[], true⟩, []⟩
        ⟨1, ⟨0, 0, 100, 50⟩⟩ ⟨2, ⟨0, 0, 0, 0⟩⟩ ⟨3, ⟨0, 0, 0, 0⟩⟩ ⟨4, ⟨0, 0, 0, 0⟩⟩
        ⟨5, ⟨0, 0, 0, 0⟩⟩).sys.self
    = latin1 ("Guidelines::stateDump:\n"
        ++ "                    GuidelineStateTemplateHorizontalBottomLurking\n"
        ++ "                    GuidelineStateTemplateHorizontalTopLurking\n"
        ++ "                    GuidelineStateTemplateVerticalLeftLurking\n"
        ++ "                    GuidelineStateTemplateVerticalRightLurking\n") := by
  decide

/-- Without a transformation, a fresh collection that is initialized over the reference world
holds four hidden templates, created left, right, top, bottom and attached to the edge scenes
of their orientation; clearing it detaches all four and leaves an empty membership. -/
theorem Guidelines.initialize_clear_hide :
    ( Guidelines.initialize refCollaborators ⟨Guidelines.new, ⟨[], false⟩, []⟩
        ⟨1, ⟨0, 0, 100, 50⟩⟩ ⟨2, ⟨0, 0, 0, 0⟩⟩ ⟨3, ⟨0, 0, 0, 0⟩⟩ ⟨4, ⟨0, 0, 0, 0⟩⟩
        ⟨5, ⟨0, 0, 0, 0⟩⟩).sys.self.m_guidelineContainer = [0, 1, 2, 3]
    ∧ ( Guidelines.initialize refCollaborators ⟨Guidelines.new, ⟨[], false⟩, []⟩
        ⟨1, ⟨0, 0, 100, 50⟩⟩ ⟨2, ⟨0, 0, 0, 0⟩⟩ ⟨3, ⟨0, 0, 0, 0⟩⟩ ⟨4, ⟨0, 0, 0, 0⟩⟩
        ⟨5, ⟨0, 0, 0, 0⟩⟩).sys.calls
      = [Call.createGuideline GUIDELINE_STATE_TEMPLATE_VERTICAL_LEFT_HIDE 0,
          Call.createGuideline GUIDELINE_STATE_TEMPLATE_VERTICAL_RIGHT_HIDE 1,
          Call.createGuideline GUIDELINE_STATE_TEMPLATE_HORIZONTAL_TOP_HIDE 2,
          Call.createGuideline GUIDELINE_STATE_TEMPLATE_HORIZONTAL_BOTTOM_HIDE 3]
    ∧ (Guidelines.clear refCollaborators
        { ( Guidelines.initialize refCollaborators ⟨Guidelines.new, ⟨[], false⟩, []⟩
            ⟨1, ⟨0, 0, 100, 50⟩⟩ ⟨2, ⟨0, 0, 0, 0⟩⟩ ⟨3, ⟨0, 0, 0, 0⟩⟩ ⟨4, ⟨0, 0, 0, 0⟩⟩
            ⟨5, ⟨0, 0, 0, 0⟩⟩).sys with calls := [] }).calls
      = [Call.removeFromScene 0 3, Call.removeFromScene 1 4, Call.removeFromScene 2 5,
          Call.removeFromScene 3 2]
    ∧ (Guidelines.clear refCollaborators
        ( Guidelines.initialize refCollaborators ⟨Guidelines.new, ⟨[], false⟩, []⟩
            ⟨1, ⟨0, 0, 100, 50⟩⟩ ⟨2, ⟨0, 0, 0, 0⟩⟩ ⟨3, ⟨0, 0, 0, 0⟩⟩ ⟨4, ⟨0, 0, 0, 0⟩⟩
            ⟨5, ⟨0, 0, 0, 0⟩⟩).sys).self.m_guidelineContainer = [] := by
  decide
